import Mathlib

/-!
Shallow embedding of `src/nix_derivation_tools/derivation.py`.

The Python module manipulates dynamically typed values (strings, lists,
tuples, sets, dicts), so the embedding works over an inductive type
`PyVal` of such values.  Python exceptions are modelled by the error
type `PyErr` together with `Except`.  The filesystem consulted by
`parse_derivation_file` and the `NIX_STORE` environment variable are
passed explicitly as parameters (`fs : String → Option String`,
`env : Option String`).  Mutation of a `Derivation` object (Python's
`vars(self)` returns the instance `__dict__` itself, which `to_dict`
and `diff` then update in place) is modelled by returning the
post-state of the object next to the ordinary return value.
-/

namespace NixDrv

/-- Dynamic Python value, restricted to the shapes the derivation code
manipulates: strings, lists, tuples, sets and string-keyed dicts.
A set is kept as its insertion-ordered list of distinct elements, a
dict as its insertion-ordered association list with distinct keys. -/
inductive PyVal where
  | str : String → PyVal
  | list : List PyVal → PyVal
  | tuple : List PyVal → PyVal
  | set : List PyVal → PyVal
  | dict : List (String × PyVal) → PyVal
  deriving Repr

/-- Python exceptions raised by the module.  `malformed` stands for the
SyntaxError/ValueError raised by `ast.literal_eval` on bad input;
`wrappedParse p e` stands for the `ValueError("Couldn't parse derivation
at path {p}: {repr(e)}")` raised by `parse_derivation_file`, which
names the offending source path `p` and carries the cause `e`;
`invalidFormat f` stands for the `ValueError("Invalid format: {f}")`
raised by `display`. -/
inductive PyErr where
  | malformed : PyErr
  | indexError : PyErr
  | typeError : PyErr
  | unpackMismatch : PyErr
  | keyError : String → PyErr
  | attributeError : PyErr
  | fileNotFound : String → PyErr
  | wrappedParse : String → PyErr → PyErr
  | invalidFormat : String → PyErr
  deriving Repr, DecidableEq

mutual

/-- Python structural equality `==` on the embedded values.  Two
values of different constructors compare unequal, as in Python for
these five types. -/
def pyBeq : PyVal → PyVal → Bool
  | .str a, .str b => a == b
  | .list a, .list b => pyBeqL a b
  | .tuple a, .tuple b => pyBeqL a b
  | .set a, .set b => pyBeqL a b
  | .dict a, .dict b => pyBeqP a b
  | _, _ => false

/-- Pointwise equality of element lists (Python sequence equality). -/
def pyBeqL : List PyVal → List PyVal → Bool
  | [], [] => true
  | a :: as, b :: bs => pyBeq a b && pyBeqL as bs
  | _, _ => false

/-- Pointwise equality of key/value pair lists. -/
def pyBeqP : List (String × PyVal) → List (String × PyVal) → Bool
  | [], [] => true
  | (k, a) :: as, (k2, b) :: bs => k == k2 && pyBeq a b && pyBeqP as bs
  | _, _ => false

end

mutual

/-- Whether a value is hashable in Python: strings are, tuples are when
all their components are, and lists, sets and dicts are not. -/
def pyHashable : PyVal → Bool
  | .str _ => true
  | .tuple l => pyHashableL l
  | _ => false

/-- All elements hashable. -/
def pyHashableL : List PyVal → Bool
  | [] => true
  | a :: as => pyHashable a && pyHashableL as

end

/-- Membership in a Python set's element list, by Python equality. -/
def pyMem (l : List PyVal) (v : PyVal) : Bool :=
  l.any fun w => pyBeq w v

/-- Models `s.add(v)` on a Python set: a TypeError for unhashable `v`,
otherwise insert `v` unless an equal element is already present. -/
def pySetAdd (l : List PyVal) (v : PyVal) : Except PyErr (List PyVal) :=
  if pyHashable v then .ok (if pyMem l v then l else l ++ [v]) else .error .typeError

/-- Models `set(xs)`: fold the elements of an iterable into a set. -/
def pySetOf (xs : List PyVal) : Except PyErr (List PyVal) :=
  xs.foldlM pySetAdd []

/-- First value bound to key `k` in an association list (dict keys are
kept distinct by `dictInsert`, so this is the dict lookup). -/
def pyLookup : List (String × PyVal) → String → Option PyVal
  | [], _ => none
  | (k2, v) :: rest, k => if k2 = k then some v else pyLookup rest k

/-- Models `d[k] = v` on a Python dict: overwrite the value in place when the
key is present, append the pair otherwise. -/
def dictInsert (d : List (String × PyVal)) (k : String) (v : PyVal) :
    List (String × PyVal) :=
  if (pyLookup d k).isSome then
    d.map fun p => if p.1 = k then (k, v) else p
  else d ++ [(k, v)]

/-- Dict subscript `v[k]`: a KeyError when the key is absent, a
TypeError when `v` does not support string subscription. -/
def pySubscript (v : PyVal) (k : String) : Except PyErr PyVal :=
  match v with
  | .dict l =>
    match pyLookup l k with
    | some x => .ok x
    | none => .error (.keyError k)
  | _ => .error .typeError

/-- Sequence subscript `v[i]` with a natural index, as used on the
parsed 7-tuple (`derivation_list[0]` … `derivation_list[6]`). -/
def pyIndex (v : PyVal) (i : Nat) : Except PyErr PyVal :=
  match v with
  | .list l =>
    match l.get? i with
    | some x => .ok x
    | none => .error .indexError
  | .tuple l =>
    match l.get? i with
    | some x => .ok x
    | none => .error .indexError
  | .str s =>
    match s.data.get? i with
    | some c => .ok (.str (String.mk [c]))
    | none => .error .indexError
  | _ => .error .typeError

/-- Iterating a Python value: a string yields its one-character strings,
sequences and sets yield their elements, a dict yields its keys. -/
def pyIter : PyVal → Except PyErr (List PyVal)
  | .str s => .ok (s.data.map fun c => .str (String.mk [c]))
  | .list l => .ok l
  | .tuple l => .ok l
  | .set l => .ok l
  | .dict l => .ok (l.map fun p => .str p.1)

/-- Unpacking `name, path, hashtype, hash_ = item`: iterate the item and
require exactly four elements, a ValueError otherwise. -/
def unpack4 (v : PyVal) : Except PyErr (PyVal × PyVal × PyVal × PyVal) := do
  let l ← pyIter v
  match l with
  | [a, b, c, d] => .ok (a, b, c, d)
  | _ => .error .unpackMismatch

/-- Unpacking a key/value pair, as done element-wise by `dict(...)`. -/
def unpack2 (v : PyVal) : Except PyErr (PyVal × PyVal) := do
  let l ← pyIter v
  match l with
  | [a, b] => .ok (a, b)
  | _ => .error .unpackMismatch

/-- Coercion of a dict key to the embedding's string keys.  Derivation
files only ever use string keys. -/
def asStr (v : PyVal) : Except PyErr String :=
  match v with
  | .str s => .ok s
  | _ => .error .typeError

/-- Drop leading Python whitespace. -/
def skipWs : List Char → List Char
  | [] => []
  | c :: cs =>
    if c = ' ' ∨ c = '\t' ∨ c = '\n' ∨ c = '\r' then skipWs cs else c :: cs

/-- Decoding of one backslash escape inside a Python string literal:
the escapes occurring in derivation files (backslash, both quotes) plus
the common control characters; an unrecognized escape keeps the
backslash, as Python does. -/
def escSeq (e : Char) : List Char :=
  if e = 'n' then ['\n']
  else if e = 't' then ['\t']
  else if e = 'r' then ['\r']
  else if e = '\\' then ['\\']
  else if e = Char.ofNat 39 then [Char.ofNat 39]
  else if e = Char.ofNat 34 then [Char.ofNat 34]
  else ['\\', e]

/-- Scan the body of a quoted string literal opened with quote `q`,
accumulating decoded characters in reverse; `none` on an unterminated
literal. -/
def scanStr (q : Char) : List Char → List Char → Option (List Char × List Char)
  | _, [] => none
  | acc, c :: cs =>
    if c = q then some (acc.reverse, cs)
    else if c = '\\' then
      match cs with
      | [] => none
      | e :: cs2 => scanStr q ((escSeq e).reverse ++ acc) cs2
    else scanStr q (c :: acc) cs

mutual

/-- Recursive-descent parser for one Python literal expression: a
quoted string, a `[...]` list, or a `(...)` parenthesized expression or
tuple.  Together with `parseTop` this models `ast.literal_eval`
restricted to the literal forms of the derivation grammar (strings,
lists, tuples); any other token is a parse failure, as the real
`literal_eval` fails on anything that is not a valid literal.  The
fuel argument only bounds recursion depth; `literalEval` supplies more
than any input can consume. -/
def parseAtom : Nat → List Char → Option (PyVal × List Char)
  | 0, _ => none
  | fuel + 1, cs =>
    match skipWs cs with
    | [] => none
    | c :: rest =>
      if c = Char.ofNat 34 ∨ c = Char.ofNat 39 then
        match scanStr c [] rest with
        | some (s, r) => some (.str (String.mk s), r)
        | none => none
      else if c = '[' then
        match parseSeq fuel ']' rest with
        | some (items, r) => some (.list items, r)
        | none => none
      else if c = '(' then
        match skipWs rest with
        | ')' :: r => some (.tuple [], r)
        | _ =>
          match parseAtom fuel rest with
          | none => none
          | some (v, r) =>
            match skipWs r with
            | ')' :: r2 => some (v, r2)
            | ',' :: r2 =>
              match parseSeq fuel ')' r2 with
              | some (items, r3) => some (.tuple (v :: items), r3)
              | none => none
            | _ => none
      else none

/-- Comma-separated elements up to the closing delimiter `close`, with
an optional trailing comma, as inside `[...]` and `(...)`. -/
def parseSeq : Nat → Char → List Char → Option (List PyVal × List Char)
  | 0, _, _ => none
  | fuel + 1, close, cs =>
    match skipWs cs with
    | [] => none
    | c :: rest =>
      if c = close then some ([], rest)
      else
        match parseAtom fuel (c :: rest) with
        | none => none
        | some (v, r) =>
          match skipWs r with
          | [] => none
          | c2 :: r2 =>
            if c2 = close then some ([v], r2)
            else if c2 = ',' then
              match parseSeq fuel close r2 with
              | some (items, r3) => some (v :: items, r3)
              | none => none
            else none

end

/-- Further elements of an unparenthesized top-level tuple, after a
comma has been consumed; a trailing comma ends at end of input. -/
def parseTopRest : Nat → List Char → Option (List PyVal × List Char)
  | 0, _ => none
  | fuel + 1, cs =>
    match skipWs cs with
    | [] => some ([], [])
    | c :: rest =>
      match parseAtom fuel (c :: rest) with
      | none => none
      | some (v, r) =>
        match skipWs r with
        | ',' :: r2 =>
          match parseTopRest fuel r2 with
          | some (items, r3) => some (v :: items, r3)
          | none => none
        | r2 => some ([v], r2)

/-- Top-level expression of `ast.literal_eval` in eval mode: a single
literal, or a bare comma-separated tuple such as the 7-element
derivation body `[...],[...],[...],"...","...",[...],[...]`. -/
def parseTop : Nat → List Char → Option (PyVal × List Char)
  | 0, _ => none
  | fuel + 1, cs =>
    match parseAtom fuel cs with
    | none => none
    | some (v, r) =>
      match skipWs r with
      | ',' :: r2 =>
        match parseTopRest fuel r2 with
        | some (items, r3) => some (.tuple (v :: items), r3)
        | none => none
      | r2 => some (v, r2)

/-- Models `ast.literal_eval` on the derivation grammar: parse one
top-level expression and require that only whitespace remains. -/
def literalEval (cs : List Char) : Option PyVal :=
  match parseTop (2 * cs.length + 2) cs with
  | some (v, r) => if skipWs r = [] then some v else none
  | none => none

/-- The in-memory derivation record.  `Derivation.__init__` binds
exactly these seven attributes, in this order; the `path` parameter it
receives is documented but never assigned to the instance, so the
record has no `path` field.  Every field holds a dynamic value because
`to_dict` and `diff` overwrite fields with values of other types. -/
structure Derivation where
  outputs : PyVal
  input_derivations : PyVal
  input_files : PyVal
  system : PyVal
  builder : PyVal
  builder_args : PyVal
  environment : PyVal
  deriving Repr

/-- Models `vars(self)`: the instance `__dict__` as an association
list, in attribute insertion order (the assignment order of
`__init__`). -/
def Derivation.vars (d : Derivation) : List (String × PyVal) :=
  [("outputs", d.outputs), ("input_derivations", d.input_derivations),
   ("input_files", d.input_files), ("system", d.system),
   ("builder", d.builder), ("builder_args", d.builder_args),
   ("environment", d.environment)]

/-- Models `Derivation.__eq__`: `vars(self) == vars(other)`.  Both
dicts carry the same seven keys in the same order, so the Python dict
comparison amounts to this pairwise comparison of the field values. -/
def Derivation.eq (a b : Derivation) : Bool :=
  pyBeq (.dict a.vars) (.dict b.vars)

/-- The dict comprehension of `parse_derivation` folding element 1 of
the tuple into the outputs mapping: each item is unpacked as
`(name, path, hashtype, hash_)` and mapped to the bare path when
`hashtype == ""`, and to the full triple otherwise. -/
def buildOutputs (items : List PyVal) : Except PyErr (List (String × PyVal)) :=
  items.foldlM
    (fun acc item => do
      let q ← unpack4 item
      let key ← asStr q.1
      let value := if pyBeq q.2.2.1 (.str "") then q.2.1 else .tuple [q.2.1, q.2.2.1, q.2.2.2]
      .ok (dictInsert acc key value))
    []

/-- Models `dict(items)` on a list of key/value pairs (elements 2 and 7
of the tuple); last value wins on duplicate keys. -/
def buildDict (items : List PyVal) : Except PyErr (List (String × PyVal)) :=
  items.foldlM
    (fun acc item => do
      let q ← unpack2 item
      let key ← asStr q.1
      .ok (dictInsert acc key q.2))
    []

/-- Lines 157-168 of `parse_derivation`: destructure the parsed
7-tuple into the record, in the evaluation order of the source. -/
def buildDerivation (v : PyVal) : Except PyErr Derivation := do
  let e0 ← pyIndex v 0
  let outItems ← pyIter e0
  let outputs ← buildOutputs outItems
  let e1 ← pyIndex v 1
  let derivItems ← pyIter e1
  let input_derivations ← buildDict derivItems
  let e2 ← pyIndex v 2
  let fileItems ← pyIter e2
  let input_files ← pySetOf fileItems
  let system ← pyIndex v 3
  let builder ← pyIndex v 4
  let builder_args ← pyIndex v 5
  let e6 ← pyIndex v 6
  let envItems ← pyIter e6
  let environment ← buildDict envItems
  .ok { outputs := .dict outputs, input_derivations := .dict input_derivations,
        input_files := .set input_files, system := system, builder := builder,
        builder_args := builder_args, environment := .dict environment }

/-- Models `derivation_string.startswith("Derive([")` as a direct
pattern match on the first eight characters. -/
def startsWithDerive (cs : List Char) : Bool :=
  match cs with
  | 'D' :: 'e' :: 'r' :: 'i' :: 'v' :: 'e' :: '(' :: '[' :: _ => true
  | _ => false

/-- Body of `Derivation.parse_derivation` on the character list of the input:
trim `derivation_string[7:-1]` when the text starts with `Derive([`,
then evaluate the remaining literal and build the record. -/
def parseDerivationChars (cs : List Char) : Except PyErr Derivation :=
  let cs2 := if startsWithDerive cs then (cs.drop 7).dropLast else cs
  match literalEval cs2 with
  | none => .error .malformed
  | some v => buildDerivation v

/-- Models `Derivation.parse_derivation(derivation_string,
derivation_path)`.  The path argument is accepted, as in the source,
but the record built by `__init__` never stores it. -/
def Derivation.parse_derivation (derivation_string derivation_path : String) :
    Except PyErr Derivation :=
  parseDerivationChars derivation_string.data

/-- Models `os.path.isabs` on POSIX: the path starts with a slash. -/
def isAbs (p : String) : Bool :=
  match p.data with
  | '/' :: _ => true
  | _ => false

/-- Models `os.path.join(a, b)` on POSIX for the two-argument form. -/
def pathJoin (a b : String) : String :=
  if isAbs b then b
  else if a = "" then b
  else if a.data.getLast? = some '/' then a ++ b
  else a ++ "/" ++ b

/-- Path resolution of `parse_derivation_file`: a relative path is
joined to the `NIX_STORE` environment value when that is set. -/
def resolvePath (env : Option String) (p : String) : String :=
  if ¬ isAbs p then
    match env with
    | some root => pathJoin root p
    | none => p
  else p

/-- Models `Derivation.parse_derivation_file`: resolve the path, read
the file through `fs` (a `none` read models the IOError of `open`),
parse it, and wrap any parse failure in the ValueError that names the
offending path and carries the cause. -/
def Derivation.parse_derivation_file (fs : String → Option String)
    (env : Option String) (derivation_path : String) : Except PyErr Derivation :=
  let p := resolvePath env derivation_path
  match fs p with
  | none => .error (.fileNotFound p)
  | some source =>
    match Derivation.parse_derivation source p with
    | .ok d => .ok d
    | .error e => .error (.wrappedParse p e)

/-- Models the `name` property: `self.environment["name"]`. -/
def Derivation.name (d : Derivation) : Except PyErr PyVal :=
  pySubscript d.environment "name"

/-- The inner loop of `input_paths` for one entry of
`input_derivations`: for every requested output name, look the value up
in the referenced derivation's outputs mapping and add it to the set —
the value is added exactly as stored, with no unwrapping of the
fixed-output triple. -/
def addOutputNames (outputsVal : PyVal) :
    List PyVal → List PyVal → Except PyErr (List PyVal)
  | [], acc => .ok acc
  | n :: rest, acc =>
    match asStr n with
    | .error e => .error e
    | .ok key =>
      match pySubscript outputsVal key with
      | .error e => .error e
      | .ok v =>
        match pySetAdd acc v with
        | .error e => .error e
        | .ok acc2 => addOutputNames outputsVal rest acc2

/-- The outer loop of `input_paths` over `input_derivations.items()`:
re-parse each referenced derivation file and add its requested
outputs. -/
def resolveDerivs (fs : String → Option String) (env : Option String) :
    List (String × PyVal) → List PyVal → Except PyErr (List PyVal)
  | [], acc => .ok acc
  | (p, outs) :: rest, acc =>
    match Derivation.parse_derivation_file fs env p with
    | .error e => .error e
    | .ok ideriv =>
      match pyIter outs with
      | .error e => .error e
      | .ok names =>
        match addOutputNames ideriv.outputs names acc with
        | .error e => .error e
        | .ok acc2 => resolveDerivs fs env rest acc2

/-- Models `paths = set(self.input_files)`, the starting set of
`input_paths`. -/
def inputFilesSet (d : Derivation) : Except PyErr (List PyVal) := do
  let items ← pyIter d.input_files
  pySetOf items

/-- Models the `input_paths` property: the input files plus, for each
entry of `input_derivations`, the values of the requested outputs of
the re-parsed referenced derivation. -/
def Derivation.input_paths (fs : String → Option String)
    (env : Option String) (d : Derivation) : Except PyErr PyVal :=
  match inputFilesSet d with
  | .error e => .error e
  | .ok start =>
    match d.input_derivations with
    | .dict entries =>
      match resolveDerivs fs env entries start with
      | .error e => .error e
      | .ok res => .ok (.set res)
    | _ => .error .attributeError

/-- Models `to_dict`.  In the source `res = vars(self)` aliases the
instance `__dict__`, so the loop that replaces set and tuple values by
lists updates the object itself; the returned pair is the post-state of
the object together with the dictionary handed to the caller (they are
the same mapping).  The iteration order of `list(set)` is modelled as
the set's insertion order. -/
def Derivation.to_dict (d : Derivation) : Derivation × PyVal :=
  let conv : PyVal → PyVal := fun v =>
    match v with
    | .set l => .list l
    | .tuple l => .list l
    | x => x
  let d2 : Derivation :=
    { outputs := conv d.outputs, input_derivations := conv d.input_derivations,
      input_files := conv d.input_files, system := conv d.system,
      builder := conv d.builder, builder_args := conv d.builder_args,
      environment := conv d.environment }
  (d2, .dict d2.vars)

/-- Models `sorted(keys)` on the string keys of an outputs mapping, in the
code-point order Python uses. -/
def sortedStr (l : List String) : List String :=
  l.insertionSort (· ≤ ·)

/-- Models `d.keys()` of the outputs field: an AttributeError when the field
no longer holds a dict. -/
def pyKeys (v : PyVal) : Except PyErr (List String) :=
  match v with
  | .dict l => .ok (l.map Prod.fst)
  | _ => .error .attributeError

/-- Models `diff`.  `selfdict, otherdict = vars(self), vars(other)`
alias the two instance `__dict__`s, so replacing the `outputs` entry by
the sorted list of output names rewrites both objects.  The result
carries the two post-states and the two normalized mappings handed to
`datadiff.diff`; that external library reports the derivations as equal
exactly when the two mappings are equal. -/
def Derivation.diff (a b : Derivation) :
    Except PyErr (Derivation × Derivation × (PyVal × PyVal)) :=
  match pyKeys a.outputs with
  | .error e => .error e
  | .ok ka =>
    match pyKeys b.outputs with
    | .error e => .error e
    | .ok kb =>
      let a2 : Derivation := { a with outputs := .list ((sortedStr ka).map .str) }
      let b2 : Derivation := { b with outputs := .list ((sortedStr kb).map .str) }
      .ok (a2, b2, (.dict a2.vars, .dict b2.vars))

/-- Selection step of `display` (lines 116-121): the whole dictionary
when no selector is given, `selfdict[attribute]` when an attribute is
requested, `self.environment[env_var]` otherwise. -/
def displaySelect (selfdict envField : PyVal)
    (attr env_var : Option String) : Except PyErr PyVal :=
  match attr, env_var with
  | none, none => .ok selfdict
  | some a, _ => pySubscript selfdict a
  | none, some e => pySubscript envField e

/-- Models `display`.  The JSON and YAML encoders are the external
serialization libraries, passed as collaborator functions.  The method
first calls `to_dict`, which mutates the receiver (hence the returned
post-state), then selects the value to print; a plain string is
returned as-is when `pretty` is true, before the format is examined;
otherwise an unknown format raises `ValueError("Invalid format: ...")`. -/
def Derivation.display (jsonEnc yamlEnc : PyVal → Bool → Except PyErr String)
    (d : Derivation) (attr env_var : Option String)
    (format : String) (pretty : Bool) : Derivation × Except PyErr String :=
  let conv := d.to_dict
  let d2 := conv.1
  let selfdict := conv.2
  (d2,
    match displaySelect selfdict d2.environment attr env_var with
    | .error e => .error e
    | .ok to_print =>
      match to_print, pretty with
      | .str s, true => .ok s
      | tp, _ =>
        if format = "json" then jsonEnc tp pretty
        else if format = "yaml" then yamlEnc tp pretty
        else .error (.invalidFormat format))

/-- Stand-in encoder used to instantiate the external serializer
parameters of `display` in concrete instances. -/
def stubEnc : PyVal → Bool → Except PyErr String :=
  fun _ _ => .ok ""

/-- The end-to-end example text of the specification (section 8). -/
def exampleText : String :=
  "Derive([(\"out\",\"/store/abc-foo\",\"\",\"\")],[],[\"/store/src-bar\"],\"x86_64-linux\",\"/bin/sh\",[\"-c\",\"echo hi\"],[(\"name\",\"foo\")])"

/-- The record the example text parses to. -/
def exampleDeriv : Derivation :=
  { outputs := .dict [("out", .str "/store/abc-foo")],
    input_derivations := .dict [],
    input_files := .set [.str "/store/src-bar"],
    system := .str "x86_64-linux",
    builder := .str "/bin/sh",
    builder_args := .list [.str "-c", .str "echo hi"],
    environment := .dict [("name", .str "foo")] }

/-- A record identical to `exampleDeriv` except for the store path
inside `outputs`, with the same single output name. -/
def exampleDerivB : Derivation :=
  { exampleDeriv with outputs := .dict [("out", .str "/store/xyz-foo")] }

/-- A well-formed 7-tuple body written as a parenthesized tuple: it is
a valid `ast.literal_eval` input on its own, but does not begin with
the character `[`. -/
def parenBody : String :=
  "([(\"out\",\"/store/p\",\"\",\"\")],[],[],\"s\",\"b\",[],[(\"name\",\"n\")])"

/-- The example body without the `Derive(`/`)` wrapper, beginning with
`[`. -/
def exampleBody : String :=
  "[(\"out\",\"/store/abc-foo\",\"\",\"\")],[],[\"/store/src-bar\"],\"x86_64-linux\",\"/bin/sh\",[\"-c\",\"echo hi\"],[(\"name\",\"foo\")]"

/-- Text of a fixed-output derivation: its sole output `out` carries a
hash algorithm and hash, so parsing stores the triple form. -/
def fixedOutText : String :=
  "Derive([(\"out\",\"/store/e-out\",\"sha256\",\"abc123\")],[],[],\"x86_64-linux\",\"/bin/sh\",[],[(\"name\",\"e\")])"

/-- A one-file filesystem holding `fixedOutText` at
`/nix/store/e.drv`. -/
def fsFixed : String → Option String :=
  fun p => if p = "/nix/store/e.drv" then some fixedOutText else none

/-- The record `fixedOutText` parses to. -/
def fixedOutDeriv : Derivation :=
  { outputs := .dict [("out", .tuple [.str "/store/e-out", .str "sha256", .str "abc123"])],
    input_derivations := .dict [],
    input_files := .set [],
    system := .str "x86_64-linux",
    builder := .str "/bin/sh",
    builder_args := .list [],
    environment := .dict [("name", .str "e")] }

/-- A derivation consuming output `out` of the fixed-output derivation
at `/nix/store/e.drv`. -/
def derivWithFixedInput : Derivation :=
  { outputs := .dict [("out", .str "/store/d-out")],
    input_derivations := .dict [("/nix/store/e.drv", .list [.str "out"])],
    input_files := .set [],
    system := .str "x86_64-linux",
    builder := .str "/bin/sh",
    builder_args := .list [],
    environment := .dict [("name", .str "d")] }

/-- A derivation referencing a derivation file that no filesystem in
the instance provides. -/
def derivMissingFile : Derivation :=
  { derivWithFixedInput with
    input_derivations := .dict [("/missing.drv", .list [.str "out"])],
    environment := .dict [("name", .str "m")] }

/-- A derivation requesting output name `dev` from
`/nix/store/e.drv`, whose outputs mapping only defines `out`. -/
def derivWrongOutput : Derivation :=
  { derivWithFixedInput with
    input_derivations := .dict [("/nix/store/e.drv", .list [.str "dev"])],
    environment := .dict [("name", .str "w")] }

mutual

/-- Reflexivity of Python equality on the embedded values. -/
theorem pyBeqRefl : (v : PyVal) → pyBeq v v = true
  | .str _ => by simp [pyBeq]
  | .list l => by simpa [pyBeq] using pyBeqLRefl l
  | .tuple l => by simpa [pyBeq] using pyBeqLRefl l
  | .set l => by simpa [pyBeq] using pyBeqLRefl l
  | .dict l => by simpa [pyBeq] using pyBeqPRefl l

/-- Reflexivity of element-list equality. -/
theorem pyBeqLRefl : (l : List PyVal) → pyBeqL l l = true
  | [] => rfl
  | a :: as => by simp [pyBeqL, pyBeqRefl a, pyBeqLRefl as]

/-- Reflexivity of pair-list equality. -/
theorem pyBeqPRefl : (l : List (String × PyVal)) → pyBeqP l l = true
  | [] => rfl
  | (_, a) :: as => by simp [pyBeqP, pyBeqRefl a, pyBeqPRefl as]

end

/-- Sorting is invariant under permutation of the input, so two outputs
mappings with the same set of names normalize identically. -/
theorem sortedStr_eq_of_perm {l₁ l₂ : List String} (h : l₁.Perm l₂) :
    sortedStr l₁ = sortedStr l₂ :=
  List.eq_of_perm_of_sorted
    ((List.perm_insertionSort _ l₁).trans (h.trans (List.perm_insertionSort _ l₂).symm))
    (List.sorted_insertionSort _ l₁) (List.sorted_insertionSort _ l₂)

/-- Splitting the inner loop of `input_paths`: once a prefix of the
requested names has been processed successfully, the loop continues on
the rest from the accumulated set. -/
theorem addOutputNames_append (ov : PyVal) (n₁ n₂ : List PyVal)
    (acc acc2 : List PyVal) (h : addOutputNames ov n₁ acc = .ok acc2) :
    addOutputNames ov (n₁ ++ n₂) acc = addOutputNames ov n₂ acc2 := by
  induction n₁ generalizing acc with
  | nil =>
    simp only [addOutputNames] at h
    cases h
    rfl
  | cons n rest ih =>
    simp only [addOutputNames, List.cons_append] at h ⊢
    cases h1 : asStr n with
    | error e => simp only [h1] at h; exact Except.noConfusion h
    | ok key =>
      simp only [h1] at h ⊢
      cases h2 : pySubscript ov key with
      | error e => simp only [h2] at h; exact Except.noConfusion h
      | ok v =>
        simp only [h2] at h ⊢
        cases h3 : pySetAdd acc v with
        | error e => simp only [h3] at h; exact Except.noConfusion h
        | ok acc3 =>
          simp only [h3] at h ⊢
          exact ih _ h

/-- Splitting the outer loop of `input_paths`: once a prefix of the
`input_derivations` entries has resolved successfully, the loop
continues on the remaining entries from the accumulated set. -/
theorem resolveDerivs_append (fs : String → Option String) (env : Option String)
    (l₁ l₂ : List (String × PyVal)) (acc acc2 : List PyVal)
    (h : resolveDerivs fs env l₁ acc = .ok acc2) :
    resolveDerivs fs env (l₁ ++ l₂) acc = resolveDerivs fs env l₂ acc2 := by
  induction l₁ generalizing acc with
  | nil =>
    simp only [resolveDerivs] at h
    cases h
    rfl
  | cons e rest ih =>
    obtain ⟨p, outs⟩ := e
    simp only [resolveDerivs, List.cons_append] at h ⊢
    cases h1 : Derivation.parse_derivation_file fs env p with
    | error err => simp only [h1] at h; exact Except.noConfusion h
    | ok ideriv =>
      simp only [h1] at h ⊢
      cases h2 : pyIter outs with
      | error err => simp only [h2] at h; exact Except.noConfusion h
      | ok names =>
        simp only [h2] at h ⊢
        cases h3 : addOutputNames ideriv.outputs names acc with
        | error err => simp only [h3] at h; exact Except.noConfusion h
        | ok acc3 =>
          simp only [h3] at h ⊢
          exact ih _ h

/-- Trimming behaviour of the parse entry point: on a text of the form
`Derive(` ++ body ++ `)` whose body begins with `[`, the prefix check
fires and slicing `[7:-1]` recovers exactly the body. -/
theorem parseDerivationChars_trim (body : List Char) :
    parseDerivationChars
      ('D' :: 'e' :: 'r' :: 'i' :: 'v' :: 'e' :: '(' :: (('[' :: body) ++ [')'])) =
    parseDerivationChars ('[' :: body) := by
  have hs1 : startsWithDerive
      ('D' :: 'e' :: 'r' :: 'i' :: 'v' :: 'e' :: '(' :: (('[' :: body) ++ [')'])) = true := rfl
  have hs2 : startsWithDerive ('[' :: body) = false := rfl
  have hdrop : ('D' :: 'e' :: 'r' :: 'i' :: 'v' :: 'e' :: '(' :: (('[' :: body) ++ [')'])).drop 7
      = ('[' :: body) ++ [')'] := rfl
  simp only [parseDerivationChars, hs1, hs2, eq_self_iff_true, if_true,
    Bool.false_eq_true, if_false, hdrop, List.dropLast_concat]

/-- Claim C1: parsing the exact example text
`Derive([("out","/store/abc-foo","","")],[],["/store/src-bar"],"x86_64-linux","/bin/sh",["-c","echo hi"],[("name","foo")])`
yields the record with outputs `{"out": "/store/abc-foo"}`, empty
input_derivations, input_files `{"/store/src-bar"}`, system
`"x86_64-linux"`, builder `"/bin/sh"`, builder_args
`["-c","echo hi"]` and environment `{"name":"foo"}`; on that record
the `name` accessor yields `"foo"` and `input_paths` (for any
filesystem and environment, since no input derivation is referenced)
yields the set `{"/store/src-bar"}`. -/
theorem claim1_example_parse :
    Derivation.parse_derivation exampleText "/store/example.drv" = .ok exampleDeriv ∧
    exampleDeriv.name = .ok (.str "foo") ∧
    ∀ (fs : String → Option String) (env : Option String),
      Derivation.input_paths fs env exampleDeriv = .ok (.set [.str "/store/src-bar"]) :=
  ⟨rfl, rfl, fun _ _ => rfl⟩

/-- Claim C2 (refuted; the code contradicts its own documented return
type): resolving `derivWithFixedInput`, whose referenced file parses
with the fixed-output triple `("/store/e-out","sha256","abc123")` under
output name `out`, makes `input_paths` add the whole triple to the
result set — the triple is not unwrapped to its path component, and
the bare path `"/store/e-out"` is not an element of the result. -/
theorem claim2_no_unwrapping :
    Derivation.parse_derivation_file fsFixed none "/nix/store/e.drv" = .ok fixedOutDeriv ∧
    fixedOutDeriv.outputs =
      .dict [("out", .tuple [.str "/store/e-out", .str "sha256", .str "abc123"])] ∧
    Derivation.input_paths fsFixed none derivWithFixedInput =
      .ok (.set [.tuple [.str "/store/e-out", .str "sha256", .str "abc123"]]) ∧
    pyMem [PyVal.tuple [.str "/store/e-out", .str "sha256", .str "abc123"]]
      (.str "/store/e-out") = false :=
  ⟨rfl, rfl, rfl, rfl⟩

/-- Claim C3 (refuted; `vars(self)` aliasing mutates the receiver):
`diff` replaces the `outputs` field of both arguments by the sorted
list of output names — a value different from the original dict — and
`to_dict` replaces the `input_files` set of the receiver by a list. -/
theorem claim3_operations_mutate :
    (Derivation.diff exampleDeriv exampleDeriv).toOption.map
        (fun t => (t.1.outputs, t.2.1.outputs))
      = some (.list [.str "out"], .list [.str "out"]) ∧
    exampleDeriv.outputs = .dict [("out", .str "/store/abc-foo")] ∧
    PyVal.list [.str "out"] ≠ exampleDeriv.outputs ∧
    (Derivation.to_dict exampleDeriv).1.input_files = .list [.str "/store/src-bar"] ∧
    exampleDeriv.input_files = .set [.str "/store/src-bar"] ∧
    PyVal.list [.str "/store/src-bar"] ≠ exampleDeriv.input_files := by
  refine ⟨rfl, rfl, ?_, rfl, rfl, ?_⟩ <;> (intro h; exact PyVal.noConfusion h)

/-- Claim C4: for two derivations whose fields agree except for the
contents of the `outputs` dicts, which carry the same set of output
names (without duplicates), `diff` hands `datadiff` two equal
normalized mappings, so the diff reports the derivations as equal. -/
theorem claim4_diff_normalizes_outputs (a b : Derivation)
    (ka kb : List (String × PyVal))
    (hka : a.outputs = .dict ka) (hkb : b.outputs = .dict kb)
    (h1 : a.input_derivations = b.input_derivations)
    (h2 : a.input_files = b.input_files)
    (h3 : a.system = b.system)
    (h4 : a.builder = b.builder)
    (h5 : a.builder_args = b.builder_args)
    (h6 : a.environment = b.environment)
    (hna : (ka.map Prod.fst).Nodup) (hnb : (kb.map Prod.fst).Nodup)
    (hmem : ∀ k, k ∈ ka.map Prod.fst ↔ k ∈ kb.map Prod.fst) :
    ∃ x, Derivation.diff a b = .ok x ∧ x.2.2.1 = x.2.2.2 := by
  have hsort : sortedStr (ka.map Prod.fst) = sortedStr (kb.map Prod.fst) :=
    sortedStr_eq_of_perm ((List.perm_ext_iff_of_nodup hna hnb).mpr hmem)
  simp only [Derivation.diff, hka, hkb, pyKeys]
  refine ⟨_, rfl, ?_⟩
  show PyVal.dict _ = PyVal.dict _
  simp only [Derivation.vars, h1, h2, h3, h4, h5, h6, hsort]

/-- Witness for C4: the example record against a copy whose only
difference is the store path inside `outputs`. -/
theorem claim4_witness :
    ∃ x, Derivation.diff exampleDeriv exampleDerivB = .ok x ∧ x.2.2.1 = x.2.2.2 :=
  claim4_diff_normalizes_outputs exampleDeriv exampleDerivB
    [("out", .str "/store/abc-foo")] [("out", .str "/store/xyz-foo")]
    rfl rfl rfl rfl rfl rfl rfl rfl (by decide) (by decide) (fun _ => Iff.rfl)

/-- Claim C5 (refuted; `__init__` receives the path but never assigns
it): the record parsed from the example text carries exactly the seven
attributes bound by `__init__`, and `path` is not among them. -/
theorem claim5_no_path_field :
    Derivation.parse_derivation exampleText "/store/example.drv" = .ok exampleDeriv ∧
    exampleDeriv.vars.map Prod.fst =
      ["outputs", "input_derivations", "input_files", "system",
       "builder", "builder_args", "environment"] ∧
    "path" ∉ exampleDeriv.vars.map Prod.fst := by
  refine ⟨rfl, rfl, ?_⟩
  decide

/-- Claim C6, amended: for every derivation, selection and encoders,
calling `display` with a format other than `"json"` or `"yaml"` fails
with the invalid-format ValueError, provided the selection itself
succeeds and the selected value is not a plain string returned early by
`pretty = true`. -/
theorem claim6_amended_unsupported_format
    (jsonEnc yamlEnc : PyVal → Bool → Except PyErr String)
    (d : Derivation) (attr env_var : Option String) (format : String) (pretty : Bool)
    (v : PyVal)
    (hsel : displaySelect d.to_dict.2 d.to_dict.1.environment attr env_var = .ok v)
    (hstr : ∀ s, v = PyVal.str s → pretty = false)
    (hj : format ≠ "json") (hy : format ≠ "yaml") :
    (Derivation.display jsonEnc yamlEnc d attr env_var format pretty).2 =
      .error (.invalidFormat format) := by
  simp only [Derivation.display, hsel]
  cases v <;> cases pretty <;>
    first
      | exact Bool.noConfusion (hstr _ rfl)
      | simp only [if_neg hj, if_neg hy]

/-- Witness for the amended C6: whole-record display in format `xml`
raises the invalid-format error even with `pretty` true. -/
theorem claim6_amended_witness :
    (Derivation.display stubEnc stubEnc exampleDeriv none none "xml" true).2 =
      .error (.invalidFormat "xml") :=
  claim6_amended_unsupported_format stubEnc stubEnc exampleDeriv none none "xml" true
    (PyVal.dict (Derivation.to_dict exampleDeriv).1.vars) rfl
    (fun _ h => PyVal.noConfusion h) (by decide) (by decide)

/-- Claim C6, counterexample to the original statement: with attribute
`system` selected (a plain string) and `pretty` true, `display` with the
unsupported format `xml` returns the string instead of failing. -/
theorem claim6_cex_pretty_string :
    (Derivation.display stubEnc stubEnc exampleDeriv (some "system") none "xml" true).2
      = .ok "x86_64-linux" := rfl

/-- Claim C7: whenever the resolved file is readable but its contents
fail to parse (for any cause `e`), the failure surfaced by
`parse_derivation_file` is the single wrapped ValueError naming the
offending resolved source path and carrying the underlying cause. -/
theorem claim7_wrapped_parse_error (fs : String → Option String)
    (env : Option String) (path src : String) (e : PyErr)
    (hread : fs (resolvePath env path) = some src)
    (hparse : Derivation.parse_derivation src (resolvePath env path) = .error e) :
    Derivation.parse_derivation_file fs env path =
      .error (.wrappedParse (resolvePath env path) e) := by
  simp only [Derivation.parse_derivation_file, hread, hparse]

/-- Witness for C7: a file whose contents `(` are malformed. -/
theorem claim7_witness :
    Derivation.parse_derivation_file (fun _ => some "(") none "/bad.drv" =
      .error (.wrappedParse "/bad.drv" .malformed) :=
  claim7_wrapped_parse_error (fun _ => some "(") none "/bad.drv" "(" .malformed rfl rfl

/-- Claim C8: when closure resolution reaches an entry of
`input_derivations` (the starting set computed and all earlier entries
resolved), `input_paths` fails if the entry's file cannot be read
(surfacing the IOError with the resolved path), and fails with the
KeyError carrying the requested name if the file parses but its
outputs mapping does not define one of the requested output names. -/
theorem claim8_unresolved_input_fails (fs : String → Option String)
    (env : Option String) (d : Derivation)
    (l₁ l₂ : List (String × PyVal)) (p : String) (outs : PyVal)
    (start acc : List PyVal)
    (hstart : inputFilesSet d = .ok start)
    (hderivs : d.input_derivations = .dict (l₁ ++ (p, outs) :: l₂))
    (hpre : resolveDerivs fs env l₁ start = .ok acc) :
    (fs (resolvePath env p) = none →
      Derivation.input_paths fs env d = .error (.fileNotFound (resolvePath env p))) ∧
    (∀ ideriv m names nl₁ nm nl₂ acc2,
      Derivation.parse_derivation_file fs env p = .ok ideriv →
      ideriv.outputs = .dict m →
      pyIter outs = .ok names →
      names = nl₁ ++ PyVal.str nm :: nl₂ →
      addOutputNames ideriv.outputs nl₁ acc = .ok acc2 →
      pyLookup m nm = none →
      Derivation.input_paths fs env d = .error (.keyError nm)) := by
  have hred : ∀ e, resolveDerivs fs env ((p, outs) :: l₂) acc = .error e →
      Derivation.input_paths fs env d = .error e := by
    intro e he
    simp only [Derivation.input_paths, hstart, hderivs,
      resolveDerivs_append fs env l₁ ((p, outs) :: l₂) start acc hpre, he]
  constructor
  · intro hfs
    refine hred _ ?_
    simp only [resolveDerivs, Derivation.parse_derivation_file, hfs]
  · intro ideriv m names nl₁ nm nl₂ acc2 hfile hout hiter hnames hpref hlook
    refine hred _ ?_
    subst hnames
    simp only [resolveDerivs, hfile, hiter,
      addOutputNames_append ideriv.outputs nl₁ (PyVal.str nm :: nl₂) acc acc2 hpref]
    simp only [addOutputNames, asStr, hout, pySubscript, hlook]

/-- Witness for C8: an unreadable referenced file, and a referenced
file that defines `out` but not the requested `dev`. -/
theorem claim8_witness :
    Derivation.input_paths (fun _ => none) none derivMissingFile =
      .error (.fileNotFound "/missing.drv") ∧
    Derivation.input_paths fsFixed none derivWrongOutput =
      .error (.keyError "dev") := by
  constructor
  · exact (claim8_unresolved_input_fails (fun _ => none) none derivMissingFile [] []
      "/missing.drv" (.list [.str "out"]) [] [] rfl rfl rfl).1 rfl
  · exact (claim8_unresolved_input_fails fsFixed none derivWrongOutput [] []
      "/nix/store/e.drv" (.list [.str "dev"]) [] [] rfl rfl rfl).2
      fixedOutDeriv [("out", .tuple [.str "/store/e-out", .str "sha256", .str "abc123"])]
      [.str "dev"] [] "dev" [] [] rfl rfl rfl rfl rfl rfl

/-- Claim C9, amended: for every body text beginning with the character
`[` (in particular every well-formed 7-tuple body in the on-disk
format, whose first element is a list) and every source path, parsing
`Derive(` ++ body ++ `)` gives exactly the same result as parsing the
body alone. -/
theorem claim9_amended_trim (T p : String) (hT : T.data.head? = some '[') :
    Derivation.parse_derivation ("Derive(" ++ T ++ ")") p =
      Derivation.parse_derivation T p := by
  obtain ⟨r, hr⟩ : ∃ r, T.data = '[' :: r := by
    cases h : T.data with
    | nil => rw [h] at hT; exact Option.noConfusion hT
    | cons c cs =>
      rw [h] at hT
      simp only [List.head?] at hT
      exact ⟨cs, by rw [Option.some.injEq] at hT; rw [hT]⟩
  show parseDerivationChars ("Derive(" ++ T ++ ")").data = parseDerivationChars T.data
  have hd : ("Derive(" ++ T ++ ")").data
      = 'D' :: 'e' :: 'r' :: 'i' :: 'v' :: 'e' :: '(' :: (('[' :: r) ++ [')']) := by
    rw [String.data_append, String.data_append, hr]
    rfl
  rw [hd, hr]
  exact parseDerivationChars_trim r

/-- Witness for the amended C9: the example body. -/
theorem claim9_amended_witness :
    Derivation.parse_derivation ("Derive(" ++ exampleBody ++ ")") "/p" =
      Derivation.parse_derivation exampleBody "/p" :=
  claim9_amended_trim exampleBody "/p" rfl

/-- Claim C9, counterexample to the original statement: the
parenthesized 7-tuple body parses on its own but fails once wrapped in
`Derive(`...`)`, because the trim only fires on the literal prefix
`Derive([`, so the wrapped and unwrapped results are not equal. -/
theorem claim9_cex_paren_body :
    (Derivation.parse_derivation parenBody "/p").toOption.isSome = true ∧
    (Derivation.parse_derivation ("Derive(" ++ parenBody ++ ")") "/p").toOption.isSome
      = false :=
  ⟨rfl, rfl⟩

/-- Claim C10: the source-path argument never influences the parsed
record — the two parses of the same text are literally equal, and
whenever both succeed the records compare equal under the structural
`__eq__` (which compares `vars(self)` with `vars(other)`). -/
theorem claim10_path_noninterference (t p q : String) :
    Derivation.parse_derivation t p = Derivation.parse_derivation t q ∧
    ∀ a b, Derivation.parse_derivation t p = .ok a →
      Derivation.parse_derivation t q = .ok b → Derivation.eq a b = true := by
  refine ⟨rfl, ?_⟩
  intro a b h1 h2
  have h3 := h1.symm.trans h2
  injection h3 with h4
  subst h4
  simp only [Derivation.eq]
  exact pyBeqRefl _

/-- Witness for C10: the example text parsed under two different
source paths. -/
theorem claim10_witness :
    Derivation.parse_derivation exampleText "/a/b.drv" =
      Derivation.parse_derivation exampleText "/c/d.drv" ∧
    Derivation.eq exampleDeriv exampleDeriv = true :=
  ⟨(claim10_path_noninterference exampleText "/a/b.drv" "/c/d.drv").1,
   (claim10_path_noninterference exampleText "/a/b.drv" "/c/d.drv").2
     exampleDeriv exampleDeriv rfl rfl⟩

end NixDrv
